import Mathlib

/-!
Shallow embedding of the `hackathon_energy_2024` submission-evaluation
pipeline (files `submission_backend/poll.py`, `submission_backend/db.py`,
`submission_backend/dock.py`) and of the battery simulation it evaluates
(`bot/environment.py`, `bot/evaluate.py`).

Python floats are modelled as exact rationals (ℚ); machine-level
floating-point rounding is outside the embedding.  Exceptions are modelled
with `Except`, external effects (HTTP, the Docker daemon, the filesystem,
the DynamoDB table) with explicit state or outcome parameters.
-/

/-- Status string constants used by `poll.py`. -/
def statusPending : String := "pending"

/-- Terminal status written on a completed evaluation. -/
def statusSuccess : String := "success"

/-- Terminal status written when the evaluation raised. -/
def statusFailed : String := "failed"

/-- Error message written by `submit_output` when the preliminary
(pending) database write fails. -/
def prelimErrorMsg : String := "Failed to submit preliminary submission to database"

/-- Marker substring that makes a git tag eligible (`poll.py` line 34). -/
def submissionMarker : String := "submission"

/-- A Python exception, reduced to the two observables `poll.py` records:
`str(e)` and `traceback.format_exc()`. -/
structure PyErr where
  msg : String
  trace : String
  deriving DecidableEq

/-- One trial entry of the evaluation artifact (`evaluate.py` lines 94-101). -/
structure Trial where
  actions : List ℚ
  profits : List ℚ
  socs : List ℚ
  market_prices : List ℚ
  start_step : ℕ
  episode_length : ℕ
  deriving DecidableEq

/-- The evaluation artifact written by `evaluate.py` (lines 106-115) and
parsed back by the backend.  `np.std` returns the square root of
`std_profit_sq`; we carry the radicand, so two artifacts agree on
`std_profit` exactly when they agree on `std_profit_sq`. -/
structure Artifact where
  class_name : String
  parameters : List (String × ℚ)
  mean_profit : ℚ
  std_profit_sq : ℚ
  num_runs : ℕ
  score : ℚ
  trials : List Trial
  main_trial_idx : ℤ
  deriving DecidableEq

/-- Does `pre` start the character list `l`?  Auxiliary for Python's
substring test. -/
def charsStartWith : List Char → List Char → Bool
  | [], _ => true
  | _ :: _, [] => false
  | c :: cs, d :: ds => c = d && charsStartWith cs ds

/-- Does `needle` occur as a contiguous run inside `hay`? -/
def charsHaveSub (needle : List Char) : List Char → Bool
  | [] => charsStartWith needle []
  | d :: ds => charsStartWith needle (d :: ds) || charsHaveSub needle ds

/-- Python's `needle in hay` on strings: substring containment. -/
def strContainsSub (hay needle : String) : Bool :=
  charsHaveSub needle.toList hay.toList

/-- A tag object as returned by the GitHub tag-listing API: the fields
`poll.py` reads are `tag['name']` and `tag['commit']['sha']`. -/
structure TagInfo where
  name : String
  sha : String
  deriving DecidableEq

/-- Outcome of `requests.get` on the tag-listing URL: either a response
with a status code and a parsed tag list, or a raised exception
(connection/network error). -/
inductive HttpOutcome where
  | response (status : ℕ) (tags : List TagInfo)
  | exn (e : PyErr)
  deriving DecidableEq

/-- Embedding of `check_submission_tags` (`poll.py` lines 25-36): a raised
request exception propagates; otherwise, when the status is 200, keep the
`(name, sha)` of every tag whose name contains the marker, and on any
other status return the empty list. -/
def check_submission_tags (o : HttpOutcome) : Except PyErr (List (String × String)) :=
  match o with
  | .exn e => .error e
  | .response status tags =>
      if status = 200 then
        .ok ((tags.filter fun t => strContainsSub t.name submissionMarker).map
          fun t => (t.name, t.sha))
      else
        .ok []

/-- C6: for a successful (status-200) tag listing, a pair is in the result
iff it comes from a listed tag whose name contains the substring
"submission"; concretely "v1.0" is excluded and "submission-1" included. -/
theorem c6_tag_filter (tags : List TagInfo) (L : List (String × String))
    (h : check_submission_tags (.response 200 tags) = .ok L) :
    (∀ name sha, (name, sha) ∈ L ↔
      (⟨name, sha⟩ : TagInfo) ∈ tags ∧ strContainsSub name submissionMarker = true) ∧
    strContainsSub "submission-1" submissionMarker = true ∧
    strContainsSub "v1.0" submissionMarker = false := by
  refine ⟨?_, by decide, by decide⟩
  intro name sha
  have hL : L = (tags.filter fun t => strContainsSub t.name submissionMarker).map
      fun t => (t.name, t.sha) := by
    simpa [check_submission_tags] using h.symm
  subst hL
  constructor
  · intro hmem
    rcases List.mem_map.mp hmem with ⟨t, ht, heq⟩
    rcases List.mem_filter.mp ht with ⟨htags, hsub⟩
    cases t
    cases heq
    exact ⟨htags, hsub⟩
  · rintro ⟨htags, hsub⟩
    exact List.mem_map.mpr ⟨⟨name, sha⟩, List.mem_filter.mpr ⟨htags, hsub⟩, rfl⟩

/-- Closed witness for `c6_tag_filter` at a concrete two-tag listing. -/
theorem c6_tag_filter_witness :
    (∀ name sha,
      (name, sha) ∈ [("submission-1", "s2")] ↔
      (⟨name, sha⟩ : TagInfo) ∈ [⟨"v1.0", "s1"⟩, ⟨"submission-1", "s2"⟩] ∧
        strContainsSub name submissionMarker = true) ∧
    strContainsSub "submission-1" submissionMarker = true ∧
    strContainsSub "v1.0" submissionMarker = false :=
  c6_tag_filter [⟨"v1.0", "s1"⟩, ⟨"submission-1", "s2"⟩] [("submission-1", "s2")]
    (by rfl)

/-- State of the Docker daemon visible to `dock.py`: the tags of the images
present and the containers present, each paired with the image tag it was
started from. -/
structure DockerState where
  images : List String
  containers : List (String × String)
  deriving DecidableEq

/-- Outcomes of the Docker daemon calls made by one `save_docker_submission`
call: whether `client.images.build` succeeds, whether `client.containers.run`
succeeds, and whether streaming `container.logs` completes without raising.
A non-zero exit code of the detached container is not an error here: the log
stream simply ends and the teardown lines still run. -/
structure RunnerOracle where
  buildOk : Bool
  runOk : Bool
  logsOk : Bool
  buildErr : PyErr
  runErr : PyErr
  logsErr : PyErr
  deriving DecidableEq

/-- Error raised when `output_directory` does not exist (`dock.py` line 8). -/
def outDirErr : PyErr := ⟨"Output directory does not exist", "ValueError"⟩

/-- Error raised when `submission_directory` does not exist (`dock.py` line 11). -/
def subDirErr : PyErr := ⟨"Submission path does not exist", "ValueError"⟩

/-- Embedding of `save_docker_submission` (`dock.py` lines 6-39) as a state
transformer on the Docker daemon.  `tag` is the fresh uuid image tag and
`cid` the id of the container started from it.  The translation follows the
source line by line; there is no `finally` in the source, so teardown
(container stop/remove, image remove) runs only after the log stream
finished normally. -/
def save_docker_submission (o : RunnerOracle) (outDirExists subDirExists : Bool)
    (tag cid : String) (s : DockerState) : Except PyErr Unit × DockerState :=
  if ¬outDirExists then (.error outDirErr, s)
  else if ¬subDirExists then (.error subDirErr, s)
  else if ¬o.buildOk then (.error o.buildErr, s)
  else
    let s1 : DockerState := { s with images := tag :: s.images }
    if ¬o.runOk then (.error o.runErr, s1)
    else
      let s2 : DockerState := { s1 with containers := (cid, tag) :: s1.containers }
      if ¬o.logsOk then (.error o.logsErr, s2)
      else
        let s3 : DockerState := { s2 with containers := s2.containers.erase (cid, tag) }
        let s4 : DockerState := { s3 with images := s3.images.erase tag }
        (.ok (), s4)

/-- No image tagged `tag` and no container started from `tag` is present. -/
def DockerState.cleanOf (s : DockerState) (tag : String) : Prop :=
  tag ∉ s.images ∧ ∀ c : String × String, c ∈ s.containers → c.2 ≠ tag

/-- C2 as stated: on every exit path, nothing tagged with the call's unique
identifier remains.  Formalisation of the claim, to be refuted. -/
def CleanupOnEveryExit : Prop :=
  ∀ (o : RunnerOracle) (od sd : Bool) (tag cid : String) (s : DockerState),
    s.cleanOf tag →
    (save_docker_submission o od sd tag cid s).2.cleanOf tag

/-- C2 counterexample: build succeeds and `containers.run` raises; the
built image tagged with the call's uuid survives the call, so the cleanup
invariant fails on this exit path. -/
theorem c2_counterexample :
    ¬ CleanupOnEveryExit ∧
    (save_docker_submission ⟨true, false, true, ⟨"b", "b"⟩, ⟨"r", "r"⟩, ⟨"l", "l"⟩⟩
        true true "uuid-0" "c0" ⟨[], []⟩).2.images = ["uuid-0"] := by
  constructor
  · intro h
    have h2 := h ⟨true, false, true, ⟨"b", "b"⟩, ⟨"r", "r"⟩, ⟨"l", "l"⟩⟩
        true true "uuid-0" "c0" ⟨[], []⟩ (by constructor <;> simp)
    have h3 : "uuid-0" ∈ (save_docker_submission
        ⟨true, false, true, ⟨"b", "b"⟩, ⟨"r", "r"⟩, ⟨"l", "l"⟩⟩
        true true "uuid-0" "c0" ⟨[], []⟩).2.images := by
      simp [save_docker_submission]
    exact h2.1 h3
  · simp [save_docker_submission]

/-- C2 amended: the teardown is guaranteed only on the normal-completion
path.  Whenever the call returns without raising (which includes a non-zero
container exit), no image or container tagged with the call's fresh
identifier remains; an error before the build leaves the daemon state
unchanged. -/
theorem c2_cleanup_on_normal_exit (o : RunnerOracle) (od sd : Bool)
    (tag cid : String) (s : DockerState) (hfresh : s.cleanOf tag)
    (hok : (save_docker_submission o od sd tag cid s).1 = .ok ()) :
    (save_docker_submission o od sd tag cid s).2.cleanOf tag := by
  rcases hfresh with ⟨himg, hcon⟩
  by_cases hod : od
  · by_cases hsd : sd
    · by_cases hb : o.buildOk
      · by_cases hr : o.runOk
        · by_cases hl : o.logsOk
          · constructor
            · simp only [save_docker_submission, hod, hsd, hb, hr, hl]
              simp only [not_true, if_false, ite_false]
              intro hmem
              have hmem2 : tag ∈ (tag :: s.images).erase tag := by
                simpa using hmem
              rw [List.erase_cons_head] at hmem2
              exact himg hmem2
            · intro c hmem
              simp only [save_docker_submission, hod, hsd, hb, hr, hl] at hmem
              simp only [not_true, if_false, ite_false] at hmem
              have hmem2 : c ∈ ((cid, tag) :: s.containers).erase (cid, tag) := by
                simpa using hmem
              rw [List.erase_cons_head] at hmem2
              exact hcon c hmem2
          · exfalso
            simp [save_docker_submission, hod, hsd, hb, hr, hl] at hok
        · exfalso
          simp [save_docker_submission, hod, hsd, hb, hr] at hok
      · exfalso
        simp [save_docker_submission, hod, hsd, hb] at hok
    · exfalso
      simp [save_docker_submission, hod, hsd] at hok
  · exfalso
    simp [save_docker_submission, hod] at hok

/-- Closed witness for `c2_cleanup_on_normal_exit`: the all-success oracle
on an empty daemon state. -/
theorem c2_cleanup_on_normal_exit_witness :
    (save_docker_submission ⟨true, true, true, ⟨"b", "b"⟩, ⟨"r", "r"⟩, ⟨"l", "l"⟩⟩
        true true "uuid-1" "c1" ⟨[], []⟩).2.cleanOf "uuid-1" :=
  c2_cleanup_on_normal_exit ⟨true, true, true, ⟨"b", "b"⟩, ⟨"r", "r"⟩, ⟨"l", "l"⟩⟩
    true true "uuid-1" "c1" ⟨[], []⟩ (by constructor <;> simp) (by rfl)

/-- Error raised by `open` when `output.json` is absent from the output
mount (`dock.py` line 44). -/
def fileMissingErr : PyErr := ⟨"No such file or directory: output.json", "FileNotFoundError"⟩

/-- The slot of the output mount that `get_submission_output` reads: `none`
when `output.json` is absent, otherwise the parse outcome of its contents
(`json.load` either returns the artifact or raises). -/
structure HostFS where
  outputJson : Option (Except PyErr Artifact)

/-- Embedding of `get_submission_output` (`dock.py` lines 41-49): run the
sandbox, then open and parse `output.json`, delete it, and return the
parsed data.  `open` raises when the file is absent and `json.load` raises
on malformed contents; in both raising cases `os.remove` on line 47 is
never reached and the file slot is left as it was. -/
def get_submission_output (o : RunnerOracle) (outDirExists subDirExists : Bool)
    (tag cid : String) (ds : DockerState) (fs : HostFS) :
    Except PyErr Artifact × DockerState × HostFS :=
  match save_docker_submission o outDirExists subDirExists tag cid ds with
  | (.error e, ds1) => (.error e, ds1, fs)
  | (.ok _, ds1) =>
    match fs.outputJson with
    | none => (.error fileMissingErr, ds1, fs)
    | some (.error e) => (.error e, ds1, fs)
    | some (.ok a) => (.ok a, ds1, { fs with outputJson := none })

/-- C7: whenever `get_submission_output` returns a parsed artifact, the
result file has been deleted from the output mount before the return, and
the returned artifact is the one that was parsed from the file. -/
theorem c7_artifact_deleted_after_read (o : RunnerOracle)
    (outDirExists subDirExists : Bool) (tag cid : String)
    (ds : DockerState) (fs : HostFS) (a : Artifact)
    (h : (get_submission_output o outDirExists subDirExists tag cid ds fs).1 = .ok a) :
    (get_submission_output o outDirExists subDirExists tag cid ds fs).2.2.outputJson = none ∧
    fs.outputJson = some (.ok a) := by
  rcases hsave : save_docker_submission o outDirExists subDirExists tag cid ds with ⟨r, ds1⟩
  cases r with
  | error e =>
      exfalso
      simp [get_submission_output, hsave] at h
  | ok u =>
      rcases hfs : fs.outputJson with _ | r2
      · exfalso
        simp [get_submission_output, hsave, hfs] at h
      · cases r2 with
        | error e =>
            exfalso
            simp [get_submission_output, hsave, hfs] at h
        | ok a2 =>
            have ha : a2 = a := by
              simpa [get_submission_output, hsave, hfs] using h
            subst ha
            simp [get_submission_output, hsave, hfs]

/-- Closed witness for `c7_artifact_deleted_after_read` at a concrete
artifact and the all-success oracle. -/
theorem c7_artifact_deleted_after_read_witness :
    (get_submission_output ⟨true, true, true, ⟨"b", "b"⟩, ⟨"r", "r"⟩, ⟨"l", "l"⟩⟩
        true true "uuid-2" "c2" ⟨[], []⟩
        ⟨some (.ok ⟨"SimplePolicy", [], 0, 0, 1, 0, [], 0⟩)⟩).2.2.outputJson = none ∧
    (⟨some (.ok ⟨"SimplePolicy", [], 0, 0, 1, 0, [], 0⟩)⟩ : HostFS).outputJson =
      some (.ok ⟨"SimplePolicy", [], 0, 0, 1, 0, [], 0⟩) :=
  c7_artifact_deleted_after_read ⟨true, true, true, ⟨"b", "b"⟩, ⟨"r", "r"⟩, ⟨"l", "l"⟩⟩
    true true "uuid-2" "c2" ⟨[], []⟩ ⟨some (.ok ⟨"SimplePolicy", [], 0, 0, 1, 0, [], 0⟩)⟩
    ⟨"SimplePolicy", [], 0, 0, 1, 0, [], 0⟩ (by rfl)

/-- A submission record as assembled by `submit_output` (`poll.py` lines
66-98).  On success the whole artifact dictionary is merged into the
record; we track the merged fields the data model names (`score` and the
extracted `main_trial`). -/
structure Record where
  team : String
  commit_hash : String
  score : ℚ
  error : Option String
  error_traceback : Option String
  status : String
  main_trial : Option Trial
  deriving DecidableEq

/-- The `base_submission` dictionary (`poll.py` lines 66-73). -/
def base_submission (team hash : String) : Record :=
  { team := team
    commit_hash := hash
    score := 0
    error := none
    error_traceback := none
    status := statusPending
    main_trial := none }

/-- Python list indexing `l[i]`: negative indices count from the end and
out-of-range indices raise `IndexError` (here: `none`). -/
def pyGet {α : Type} (l : List α) (i : ℤ) : Option α :=
  let j : ℤ := if i < 0 then (l.length : ℤ) + i else i
  if 0 ≤ j then l.get? j.toNat else none

/-- Error raised by `submission['trials'][submission['main_trial_idx']]`
when the index is out of range (`poll.py` line 89). -/
def indexErr : PyErr := ⟨"list index out of range", "IndexError"⟩

/-- The `try` block of `submit_output` (`poll.py` lines 83-92): run the
evaluation, merge its output into a fresh copy of the base record, extract
`trials[main_trial_idx]`, and mark the record `success`.  Any raised
exception (from the evaluation or from the indexing) is the `.error`
value. -/
def try_evaluation (base : Record) (evalResult : Except PyErr Artifact) :
    Except PyErr Record :=
  match evalResult with
  | .error e => .error e
  | .ok out =>
    match pyGet out.trials out.main_trial_idx with
    | some t =>
        .ok { base with
              score := out.score
              main_trial := some t
              status := statusSuccess }
    | none => .error indexErr

/-- The `except Exception` clause of `submit_output` (`poll.py` lines
93-98): any exception from the try block is converted into a fresh `failed`
record carrying `str(e)` and `traceback.format_exc()`. -/
def catch_evaluation (base : Record) (r : Except PyErr Record) : Record :=
  match r with
  | .ok rec => rec
  | .error e =>
      { base with
        status := statusFailed
        error := some e.msg
        error_traceback := some e.trace }

/-- Embedding of `submit_output` (`poll.py` lines 65-100), returning the
sequence of `db_client.submit` write attempts it issues.  `pendingOk` is
whether the preliminary write succeeds (`submit` returns its success as a
boolean; a non-200 store response is a `False` return, not an exception).
The result is `.ok` by construction because the only raising region — the
evaluation — sits inside the try/except translated by `catch_evaluation`;
an escaping exception would be a `.error` value here. -/
def submit_output (team hash : String) (pendingOk : Bool)
    (evalResult : Except PyErr Artifact) : Except PyErr (List Record) :=
  let base := base_submission team hash
  let prelim :=
    if pendingOk then [base]
    else [base, { base with status := statusFailed, error := some prelimErrorMsg }]
  .ok (prelim ++ [catch_evaluation base (try_evaluation base evalResult)])

/-- C3: `submit_output` never lets an evaluation exception escape; an
evaluation error becomes a final `failed` record carrying the message and
traceback; and when the sandbox leaves no result file the last record is
`failed`, never `success`. -/
theorem c3_failure_boundary :
    (∀ team hash pendingOk r, ∃ ws : List Record,
        submit_output team hash pendingOk r = .ok ws) ∧
    (∀ team hash pendingOk e (ws : List Record),
        submit_output team hash pendingOk (.error e) = .ok ws →
        ws.getLast? = some { base_submission team hash with
          status := statusFailed
          error := some e.msg
          error_traceback := some e.trace }) ∧
    (∀ team hash pendingOk o od sd tag cid ds (fs : HostFS) (ws : List Record),
        fs.outputJson = none →
        submit_output team hash pendingOk
          (get_submission_output o od sd tag cid ds fs).1 = .ok ws →
        (ws.getLast?).map Record.status = some statusFailed) := by
  refine ⟨?_, ?_, ?_⟩
  · intro team hash pendingOk r
    exact ⟨_, rfl⟩
  · intro team hash pendingOk e ws h
    have hws : ws = (if pendingOk then [base_submission team hash]
        else [base_submission team hash,
          { base_submission team hash with
            status := statusFailed
            error := some prelimErrorMsg }]) ++
        [{ base_submission team hash with
           status := statusFailed
           error := some e.msg
           error_traceback := some e.trace }] := by
      have := h.symm
      simpa [submit_output, try_evaluation, catch_evaluation] using this
    subst hws
    by_cases hp : pendingOk <;> simp [hp]
  · intro team hash pendingOk o od sd tag cid ds fs ws hfs h
    rcases hres : (get_submission_output o od sd tag cid ds fs).1 with e | a
    · rw [hres] at h
      have hws : ws = (if pendingOk then [base_submission team hash]
          else [base_submission team hash,
            { base_submission team hash with
              status := statusFailed
              error := some prelimErrorMsg }]) ++
          [{ base_submission team hash with
             status := statusFailed
             error := some e.msg
             error_traceback := some e.trace }] := by
        have := h.symm
        simpa [submit_output, try_evaluation, catch_evaluation] using this
      subst hws
      by_cases hp : pendingOk <;> simp [hp]
    · exfalso
      rcases hsave : save_docker_submission o od sd tag cid ds with ⟨r1, ds1⟩
      cases r1 with
      | error e1 => simp [get_submission_output, hsave] at hres
      | ok u => simp [get_submission_output, hsave, hfs] at hres

/-- Closed witness for `c3_failure_boundary`: a concrete evaluation error
yields the concrete failed record, and a missing result file yields a
failed last record. -/
theorem c3_failure_boundary_witness :
    (∃ ws : List Record,
        submit_output "team-a" "sha-a" true (.error ⟨"boom", "tb"⟩) = .ok ws) ∧
    [base_submission "team-a" "sha-a",
      { base_submission "team-a" "sha-a" with
        status := statusFailed
        error := some "boom"
        error_traceback := some "tb" }].getLast? =
      some { base_submission "team-a" "sha-a" with
        status := statusFailed
        error := some "boom"
        error_traceback := some "tb" } ∧
    ([base_submission "team-a" "sha-a",
      { base_submission "team-a" "sha-a" with
        status := statusFailed
        error := some fileMissingErr.msg
        error_traceback := some fileMissingErr.trace }].getLast?).map Record.status =
      some statusFailed := by
  refine ⟨c3_failure_boundary.1 "team-a" "sha-a" true (.error ⟨"boom", "tb"⟩), ?_, ?_⟩
  · exact c3_failure_boundary.2.1 "team-a" "sha-a" true ⟨"boom", "tb"⟩ _ (by rfl)
  · exact c3_failure_boundary.2.2 "team-a" "sha-a" true
      ⟨true, true, true, ⟨"b", "b"⟩, ⟨"r", "r"⟩, ⟨"l", "l"⟩⟩ true true
      "uuid-3" "c3" ⟨[], []⟩ ⟨none⟩ _ rfl (by rfl)

/-- C4 as stated: the write sequence of one `submit_output` execution is
exactly a `pending` placeholder followed by one terminal write.
Formalisation of the claim, to be refuted. -/
def LifecycleExactlyPendingThenTerminal (statuses : List String) : Prop :=
  ∃ t, (t = statusSuccess ∨ t = statusFailed) ∧ statuses = [statusPending, t]

/-- A trivial successful artifact used in concrete counterexamples. -/
def okArtifact : Artifact :=
  ⟨"SimplePolicy", [], 0, 0, 1, 0, [⟨[], [], [], [], 0, 0⟩], 0⟩

/-- C4 counterexample: when the preliminary `pending` write fails,
`submit_output` issues three writes — `pending`, an intermediate `failed`
record noting the preliminary-write failure, and then the terminal write —
so a successful evaluation exhibits the store transition `failed` →
`success`, which the claimed two-write lifecycle excludes. -/
theorem c4_counterexample :
    submit_output "team-b" "sha-b" false (.ok okArtifact) =
      .ok [base_submission "team-b" "sha-b",
        { base_submission "team-b" "sha-b" with
          status := statusFailed
          error := some prelimErrorMsg },
        { base_submission "team-b" "sha-b" with
          score := 0
          main_trial := some ⟨[], [], [], [], 0, 0⟩
          status := statusSuccess }] ∧
    ¬ LifecycleExactlyPendingThenTerminal
        [statusPending, statusFailed, statusSuccess] := by
  constructor
  · rfl
  · rintro ⟨t, _, heq⟩
    simpa using congrArg List.length heq

/-- C4 amended: the first write is always the `pending` placeholder, the
last write always carries a terminal status, every status written is one of
`pending`/`success`/`failed`, and the evaluation (hence the terminal write)
proceeds identically whether or not the placeholder write succeeded; but
when the placeholder write fails one additional `failed` record (noting the
preliminary-write failure) is written between the placeholder and the
terminal write. -/
theorem c4_status_lifecycle (team hash : String) (pendingOk : Bool)
    (r : Except PyErr Artifact) (ws : List Record)
    (h : submit_output team hash pendingOk r = .ok ws) :
    (ws.head?).map Record.status = some statusPending ∧
    ((ws.getLast?).map Record.status = some statusSuccess ∨
      (ws.getLast?).map Record.status = some statusFailed) ∧
    (∀ rec ∈ ws, rec.status = statusPending ∨ rec.status = statusSuccess ∨
      rec.status = statusFailed) ∧
    (pendingOk = true → ws.length = 2) ∧
    (pendingOk = false → ws.length = 3 ∧
      (ws.map Record.status).take 2 = [statusPending, statusFailed]) ∧
    (∀ ws2 : List Record, submit_output team hash true r = .ok ws2 →
      ws2.getLast? = ws.getLast?) := by
  have hws : ws = (if pendingOk then [base_submission team hash]
      else [base_submission team hash,
        { base_submission team hash with
          status := statusFailed
          error := some prelimErrorMsg }]) ++
      [catch_evaluation (base_submission team hash)
        (try_evaluation (base_submission team hash) r)] := by
    have := h.symm
    simpa [submit_output] using this
  subst hws
  have hterm : (catch_evaluation (base_submission team hash)
      (try_evaluation (base_submission team hash) r)).status = statusSuccess ∨
      (catch_evaluation (base_submission team hash)
      (try_evaluation (base_submission team hash) r)).status = statusFailed := by
    rcases r with e | out
    · right
      rfl
    · rcases hidx : pyGet out.trials out.main_trial_idx with _ | t
      · right
        simp [catch_evaluation, try_evaluation, hidx]
      · left
        simp [catch_evaluation, try_evaluation, hidx]
  refine ⟨?_, ?_, ?_, ?_, ?_, ?_⟩
  · by_cases hp : pendingOk <;> simp [hp, base_submission]
  · rcases hterm with hterm | hterm
    · left
      by_cases hp : pendingOk <;> simp [hp, hterm]
    · right
      by_cases hp : pendingOk <;> simp [hp, hterm]
  · intro rec hrec
    by_cases hp : pendingOk
    · simp [hp] at hrec
      rcases hrec with hrec | hrec
      · subst hrec
        left
        rfl
      · subst hrec
        rcases hterm with hterm | hterm
        · right; left; exact hterm
        · right; right; exact hterm
    · simp [hp] at hrec
      rcases hrec with hrec | hrec | hrec
      · subst hrec
        left
        rfl
      · subst hrec
        right; right
        rfl
      · subst hrec
        rcases hterm with hterm | hterm
        · right; left; exact hterm
        · right; right; exact hterm
  · intro hp
    simp [hp]
  · intro hp
    simp [hp, base_submission]
  · intro ws2 h2
    have hws2 : ws2 = [base_submission team hash] ++
        [catch_evaluation (base_submission team hash)
          (try_evaluation (base_submission team hash) r)] := by
      have := h2.symm
      simpa [submit_output] using this
    subst hws2
    by_cases hp : pendingOk <;> simp [hp]

/-- Closed witness for `c4_status_lifecycle` at a concrete failed-placeholder
execution with a successful evaluation. -/
theorem c4_status_lifecycle_witness :
    (([base_submission "team-b" "sha-b",
      { base_submission "team-b" "sha-b" with
        status := statusFailed
        error := some prelimErrorMsg },
      { base_submission "team-b" "sha-b" with
        score := 0
        main_trial := some ⟨[], [], [], [], 0, 0⟩
        status := statusSuccess }] : List Record).head?).map Record.status =
      some statusPending :=
  (c4_status_lifecycle "team-b" "sha-b" false (.ok okArtifact)
    [base_submission "team-b" "sha-b",
      { base_submission "team-b" "sha-b" with
        status := statusFailed
        error := some prelimErrorMsg },
      { base_submission "team-b" "sha-b" with
        score := 0
        main_trial := some ⟨[], [], [], [], 0, 0⟩
        status := statusSuccess }] (by rfl)).1

/-- The DynamoDB table `green-battery-hack` as a list of records;
`(team, commit_hash)` is the composite key and `put_item` replaces any
record already at that key (last-write-wins). -/
def Store := List Record

/-- Key lookup of `table.get_item` (`db.py` lines 40-45). -/
def store_get (s : Store) (team hash : String) : Option Record :=
  s.find? fun rec => rec.team == team && rec.commit_hash == hash

/-- Embedding of `DBClient.is_already_submitted` (`db.py` lines 39-46):
`'Item' in response`, i.e. the mere existence of a record at the key,
regardless of its status. -/
def is_already_submitted (s : Store) (team hash : String) : Bool :=
  (store_get s team hash).isSome

/-- Key-replacing write of `table.put_item` (`db.py` line 55). -/
def put_item (s : Store) (rec : Record) : Store :=
  rec :: s.filter fun r2 => !(r2.team == rec.team && r2.commit_hash == rec.commit_hash)

/-- Apply a sequence of write attempts in order. -/
def applyWrites (s : Store) (ws : List Record) : Store :=
  ws.foldl put_item s

/-- One poll invocation restricted to a single `(team, commit)` key
(`poll.py` lines 112-114): skip when `is_already_submitted`, otherwise run
`submit_output`.  The boolean reports whether the evaluation ran. -/
def poll_key (s : Store) (team hash : String) (pendingOk : Bool)
    (r : Except PyErr Artifact) : Store × Bool :=
  if is_already_submitted s team hash then (s, false)
  else
    match submit_output team hash pendingOk r with
    | .ok ws => (applyWrites s ws, true)
    | .error _ => (s, true)

/-- Iterated poll invocations for one key; the boolean reports whether any
of the `n` invocations ran the evaluation. -/
def poll_iter (team hash : String) (pendingOks : ℕ → Bool)
    (rs : ℕ → Except PyErr Artifact) : ℕ → Store → Store × Bool
  | 0, s => (s, false)
  | n + 1, s =>
    let p := poll_key s team hash (pendingOks n) (rs n)
    let q := poll_iter team hash pendingOks rs n p.1
    (q.1, p.2 || q.2)

/-- C1 as stated: the dedup gate skips exactly the keys holding a record
with terminal status.  Formalisation of the claim, to be refuted. -/
def SkipIffTerminalRecord : Prop :=
  ∀ (s : Store) (team hash : String),
    is_already_submitted s team hash = true ↔
    ∃ rec, store_get s team hash = some rec ∧
      (rec.status = statusSuccess ∨ rec.status = statusFailed)

/-- C1 counterexample: a store whose only record for the key has status
`pending` already makes `is_already_submitted` true, so the commit is
skipped even though no terminal record exists. -/
theorem c1_counterexample :
    is_already_submitted [base_submission "team-c" "sha-c"] "team-c" "sha-c" = true ∧
    (base_submission "team-c" "sha-c").status = statusPending ∧
    ¬ SkipIffTerminalRecord := by
  refine ⟨by rfl, by rfl, ?_⟩
  intro hgate
  rcases (hgate [base_submission "team-c" "sha-c"] "team-c" "sha-c").mp (by rfl)
    with ⟨rec, hget, hterm⟩
  have hrec : rec = base_submission "team-c" "sha-c" := by
    have hget2 : store_get [base_submission "team-c" "sha-c"] "team-c" "sha-c" =
        some (base_submission "team-c" "sha-c") := by rfl
    rw [hget2] at hget
    exact (Option.some.inj hget).symm
  subst hrec
  rcases hterm with hterm | hterm <;> exact absurd hterm (by decide)

/-- C1 amended: the gate skips exactly the keys that hold any record at
all (a `pending` record also blocks re-evaluation); in particular, once a
terminal record exists, any number of subsequent poll invocations leaves
the store unchanged and never re-runs the evaluation. -/
theorem c1_dedup_gate (s : Store) (team hash : String) :
    (is_already_submitted s team hash = true ↔
      (store_get s team hash).isSome = true) ∧
    (∀ rec, store_get s team hash = some rec →
      (rec.status = statusSuccess ∨ rec.status = statusFailed) →
      ∀ (n : ℕ) (pendingOks : ℕ → Bool) (rs : ℕ → Except PyErr Artifact),
        poll_iter team hash pendingOks rs n s = (s, false)) := by
  constructor
  · exact Iff.rfl
  · intro rec hget _ n pendingOks rs
    have hsub : is_already_submitted s team hash = true := by
      simp [is_already_submitted, hget]
    induction n with
    | zero => rfl
    | succ n ih =>
        simp only [poll_iter, poll_key, hsub, if_true, ih]
        rfl

/-- Closed witness for `c1_dedup_gate`: three poll invocations over a store
holding one `success` record leave the store unchanged and never run the
evaluation. -/
theorem c1_dedup_gate_witness :
    poll_iter "team-d" "sha-d" (fun _ => true) (fun _ => .error ⟨"x", "y"⟩) 3
      [{ base_submission "team-d" "sha-d" with status := statusSuccess }] =
    ([{ base_submission "team-d" "sha-d" with status := statusSuccess }], false) :=
  (c1_dedup_gate [{ base_submission "team-d" "sha-d" with status := statusSuccess }]
      "team-d" "sha-d").2
    { base_submission "team-d" "sha-d" with status := statusSuccess }
    (by rfl) (Or.inl (by rfl)) 3 (fun _ => true) (fun _ => .error ⟨"x", "y"⟩)

/-- One `main` loop over the tracked repositories (`poll.py` lines
109-114), observing which repositories get processed: the poll of each
repository in order, stopping (with the raised exception) as soon as
`check_submission_tags` raises, since `main` has no try/except around the
loop body. -/
def poll_repos (oracle : String → HttpOutcome) : List String → List String × Option PyErr
  | [] => ([], none)
  | repo :: rest =>
    match check_submission_tags (oracle repo) with
    | .error e => ([repo], some e)
    | .ok _ =>
      let p := poll_repos oracle rest
      (repo :: p.1, p.2)

/-- C5 as stated: a failure while polling one repository never prevents the
other tracked repositories from being processed in the same invocation.
Formalisation of the claim, to be refuted. -/
def RepoFailureIsolated : Prop :=
  ∀ (oracle : String → HttpOutcome) (repos : List String) (repo : String),
    repo ∈ repos → repo ∈ (poll_repos oracle repos).1

/-- C5 counterexample: a network exception raised by the request for the
first repository propagates out of `check_submission_tags` and aborts the
loop, so the second repository is never processed. -/
theorem c5_counterexample :
    (poll_repos
      (fun repo => if repo = "repo-a" then .exn ⟨"ConnectionError", "tb"⟩
        else .response 200 [])
      ["repo-a", "repo-b"]).1 = ["repo-a"] ∧
    ¬ RepoFailureIsolated := by
  constructor
  · rfl
  · intro hiso
    have h2 := hiso
      (fun repo => if repo = "repo-a" then .exn ⟨"ConnectionError", "tb"⟩
        else .response 200 [])
      ["repo-a", "repo-b"] "repo-b" (by simp)
    revert h2
    decide

/-- C5 amended: a failure surfacing as a non-200 HTTP response (e.g. an
authentication error) is contained — the repo contributes no tags and every
repository is still processed — but a raised request exception (network
failure) aborts the rest of the loop: the repositories after the failing
one are not polled in that invocation. -/
theorem c5_error_containment :
    (∀ (oracle : String → HttpOutcome) (repos : List String),
      (∀ repo ∈ repos, ∀ e, oracle repo ≠ .exn e) →
      poll_repos oracle repos = (repos, none)) ∧
    (∀ (oracle : String → HttpOutcome) (repos1 : List String) (repo : String)
        (repos2 : List String) (e : PyErr),
      (∀ r2 ∈ repos1, ∀ e2, oracle r2 ≠ .exn e2) →
      oracle repo = .exn e →
      poll_repos oracle (repos1 ++ repo :: repos2) = (repos1 ++ [repo], some e)) := by
  constructor
  · intro oracle repos hne
    induction repos with
    | nil => rfl
    | cons repo rest ih =>
        rcases horacle : oracle repo with ⟨st, tags⟩ | e
        · have hrest := ih fun r2 hr2 e2 => hne r2 (List.mem_cons_of_mem repo hr2) e2
          by_cases hst : st = 200 <;>
            simp [poll_repos, check_submission_tags, horacle, hst, hrest]
        · exact absurd horacle (hne repo (List.mem_cons_self repo rest) e)
  · intro oracle repos1 repo repos2 e hne horacle
    induction repos1 with
    | nil => simp [poll_repos, check_submission_tags, horacle]
    | cons r2 rest ih =>
        rcases horacle2 : oracle r2 with ⟨st, tags⟩ | e2
        · have hrest := ih fun r3 hr3 e3 => hne r3 (List.mem_cons_of_mem r2 hr3) e3
          by_cases hst : st = 200 <;>
            simp [poll_repos, check_submission_tags, horacle2, hst, hrest]
        · exact absurd horacle2 (hne r2 (List.mem_cons_self r2 rest) e2)

/-- Closed witness for `c5_error_containment`: an all-401 oracle processes
both repositories; an oracle raising at the middle repository processes
only the repositories up to and including it. -/
theorem c5_error_containment_witness :
    poll_repos (fun _ => .response 401 []) ["repo-x", "repo-y"] =
      (["repo-x", "repo-y"], none) ∧
    poll_repos (fun repo => if repo = "repo-n" then .exn ⟨"ConnectionError", "tb"⟩
        else .response 200 []) (["repo-m"] ++ "repo-n" :: ["repo-o"]) =
      (["repo-m"] ++ ["repo-n"], some ⟨"ConnectionError", "tb"⟩) :=
  ⟨c5_error_containment.1 (fun _ => .response 401 []) ["repo-x", "repo-y"]
      (by intro repo hrepo e; simp),
   c5_error_containment.2
      (fun repo => if repo = "repo-n" then .exn ⟨"ConnectionError", "tb"⟩
        else .response 200 [])
      ["repo-m"] "repo-n" ["repo-o"] ⟨"ConnectionError", "tb"⟩
      (by intro r2 hr2 e2; simp at hr2; subst hr2; simp)
      (by simp)⟩

/-- Battery model (`environment.py` lines 18-78) over exact rationals. -/
structure Battery where
  capacity : ℚ
  charge_rate : ℚ
  discharge_rate : ℚ
  efficiency : ℚ
  initial_charge : ℚ
  state_of_charge : ℚ
  deriving DecidableEq

/-- Battery constructor (`environment.py` lines 22-38): the initial state
of charge is `min(initial_charge, capacity)`. -/
def Battery.init (capacity charge_rate discharge_rate initial_charge efficiency : ℚ) :
    Battery :=
  { capacity := capacity
    charge_rate := charge_rate
    discharge_rate := discharge_rate
    efficiency := efficiency
    initial_charge := initial_charge
    state_of_charge := min initial_charge capacity }

/-- `Battery.reset` (`environment.py` lines 40-42). -/
def Battery.reset (b : Battery) : Battery :=
  { b with state_of_charge := min b.initial_charge b.capacity }

/-- `Battery.charge` (`environment.py` lines 44-56): returns the energy
added and the updated battery. -/
def Battery.charge (b : Battery) (power duration : ℚ) : ℚ × Battery :=
  let power2 := min power b.charge_rate
  let energy_add_order := power2 * (duration / 60) * b.efficiency
  let energy_added := min energy_add_order (b.capacity - b.state_of_charge)
  (energy_added,
   { b with state_of_charge := min (b.state_of_charge + energy_add_order) b.capacity })

/-- `Battery.discharge` (`environment.py` lines 58-70): returns the energy
removed and the updated battery. -/
def Battery.discharge (b : Battery) (power duration : ℚ) : ℚ × Battery :=
  let power2 := min power b.discharge_rate
  let energy_remove_order := power2 * (duration / 60) / b.efficiency
  let energy_removed := min energy_remove_order b.state_of_charge
  (energy_removed,
   { b with state_of_charge := max (b.state_of_charge - energy_remove_order) 0 })

/-- C10 as stated: for any battery with `0 ≤ state_of_charge ≤ capacity`,
charging and discharging with nonnegative power and duration, and
resetting, keep the state of charge in `[0, capacity]`.  Formalisation of
the claim, to be refuted. -/
def BatteryOpsPreserveSocBounds : Prop :=
  ∀ (b : Battery) (power duration : ℚ),
    0 ≤ b.state_of_charge → b.state_of_charge ≤ b.capacity →
    (0 ≤ power → 0 ≤ duration →
      0 ≤ (b.charge power duration).2.state_of_charge ∧
      (b.charge power duration).2.state_of_charge ≤ b.capacity) ∧
    (0 ≤ power → 0 ≤ duration →
      0 ≤ (b.discharge power duration).2.state_of_charge ∧
      (b.discharge power duration).2.state_of_charge ≤ b.capacity) ∧
    (0 ≤ b.reset.state_of_charge ∧ b.reset.state_of_charge ≤ b.capacity)

/-- C10 counterexample: nothing validates the constructor parameters, so a
battery with a negative `initial_charge` (capacity 10, state of charge 5,
inside the claimed interval) leaves the interval on `reset`: the new state
of charge is `min(-5, 10) = -5 < 0`. -/
theorem c10_counterexample :
    (0 ≤ (⟨10, 50, 50, 9/10, -5, 5⟩ : Battery).state_of_charge ∧
      (⟨10, 50, 50, 9/10, -5, 5⟩ : Battery).state_of_charge ≤
        (⟨10, 50, 50, 9/10, -5, 5⟩ : Battery).capacity) ∧
    (⟨10, 50, 50, 9/10, -5, 5⟩ : Battery).reset.state_of_charge = -5 ∧
    ¬ BatteryOpsPreserveSocBounds := by
  refine ⟨⟨by norm_num, by norm_num⟩, ?_, ?_⟩
  · show min (-5 : ℚ) 10 = -5
    norm_num
  · intro hcl
    have h2 := (hcl ⟨10, 50, 50, 9/10, -5, 5⟩ 0 0 (by norm_num) (by norm_num)).2.2.1
    have h3 : (⟨10, 50, 50, 9/10, -5, 5⟩ : Battery).reset.state_of_charge = -5 := by
      show min (-5 : ℚ) 10 = -5
      norm_num
    rw [h3] at h2
    norm_num at h2

/-- C10 amended: the state-of-charge interval `[0, capacity]` is preserved
for well-formed battery parameters — `charge` additionally needs a
nonnegative charge rate and efficiency, `discharge` a nonnegative discharge
rate and a positive efficiency, and `reset` a nonnegative initial charge.
Charging is clamped at `capacity` and discharging at `0` as claimed. -/
theorem c10_soc_bounds (b : Battery) (power duration : ℚ)
    (hsoc0 : 0 ≤ b.state_of_charge) (hsoc1 : b.state_of_charge ≤ b.capacity) :
    (0 ≤ power → 0 ≤ duration → 0 ≤ b.charge_rate → 0 ≤ b.efficiency →
      0 ≤ (b.charge power duration).2.state_of_charge ∧
      (b.charge power duration).2.state_of_charge ≤ b.capacity) ∧
    (0 ≤ power → 0 ≤ duration → 0 ≤ b.discharge_rate → 0 < b.efficiency →
      0 ≤ (b.discharge power duration).2.state_of_charge ∧
      (b.discharge power duration).2.state_of_charge ≤ b.capacity) ∧
    (0 ≤ b.initial_charge →
      0 ≤ b.reset.state_of_charge ∧ b.reset.state_of_charge ≤ b.capacity) := by
  have hcap : (0 : ℚ) ≤ b.capacity := hsoc0.trans hsoc1
  refine ⟨?_, ?_, ?_⟩
  · intro hp hd hcr heff
    have horder : 0 ≤ min power b.charge_rate * (duration / 60) * b.efficiency :=
      mul_nonneg (mul_nonneg (le_min hp hcr) (by positivity)) heff
    constructor
    · show 0 ≤ min (b.state_of_charge + min power b.charge_rate *
        (duration / 60) * b.efficiency) b.capacity
      exact le_min (by linarith) hcap
    · show min (b.state_of_charge + min power b.charge_rate *
        (duration / 60) * b.efficiency) b.capacity ≤ b.capacity
      exact min_le_right _ _
  · intro hp hd hdr heff
    have horder : 0 ≤ min power b.discharge_rate * (duration / 60) / b.efficiency :=
      div_nonneg (mul_nonneg (le_min hp hdr) (by positivity)) heff.le
    constructor
    · show 0 ≤ max (b.state_of_charge - min power b.discharge_rate *
        (duration / 60) / b.efficiency) 0
      exact le_max_right _ _
    · show max (b.state_of_charge - min power b.discharge_rate *
        (duration / 60) / b.efficiency) 0 ≤ b.capacity
      exact max_le (by linarith) hcap
  · intro hinit
    exact ⟨le_min hinit hcap, min_le_right _ _⟩

/-- Closed witness for `c10_soc_bounds` at a battery with the default
parameters of `environment.py` charging and discharging 10 kW for 5
minutes. -/
theorem c10_soc_bounds_witness :
    (0 ≤ ((⟨100, 50, 50, 9/10, 50, 50⟩ : Battery).charge 10 5).2.state_of_charge ∧
      ((⟨100, 50, 50, 9/10, 50, 50⟩ : Battery).charge 10 5).2.state_of_charge ≤
        (⟨100, 50, 50, 9/10, 50, 50⟩ : Battery).capacity) ∧
    (0 ≤ ((⟨100, 50, 50, 9/10, 50, 50⟩ : Battery).discharge 10 5).2.state_of_charge ∧
      ((⟨100, 50, 50, 9/10, 50, 50⟩ : Battery).discharge 10 5).2.state_of_charge ≤
        (⟨100, 50, 50, 9/10, 50, 50⟩ : Battery).capacity) ∧
    (0 ≤ (⟨100, 50, 50, 9/10, 50, 50⟩ : Battery).reset.state_of_charge ∧
      (⟨100, 50, 50, 9/10, 50, 50⟩ : Battery).reset.state_of_charge ≤
        (⟨100, 50, 50, 9/10, 50, 50⟩ : Battery).capacity) := by
  have h := c10_soc_bounds ⟨100, 50, 50, 9/10, 50, 50⟩ 10 5 (by norm_num) (by norm_num)
  exact ⟨h.1 (by norm_num) (by norm_num) (by norm_num) (by norm_num),
    h.2.1 (by norm_num) (by norm_num) (by norm_num) (by norm_num),
    h.2.2 (by norm_num)⟩

/-- Environment state (`environment.py` lines 81-170).  `market_data` is
the `Market_Price` column of the loaded CSV; `dispatch_prices` is the
deque with `maxlen=6`; `episode_length` is stored by `reset` but never
consulted by `step`, which runs to the end of the data. -/
structure BatteryEnv where
  battery : Battery
  market_data : List ℚ
  dispatch_prices : List ℚ
  total_profit : ℚ
  current_step : ℕ
  episode_length : ℕ
  deriving DecidableEq

/-- Append to a `deque(maxlen=6)`: the oldest element is dropped when the
deque is full. -/
def pushMax6 (l : List ℚ) (x : ℚ) : List ℚ :=
  let l2 := l ++ [x]
  if 6 < l2.length then l2.tail else l2

/-- Arithmetic mean, as `np.mean` over the collected values. -/
def listMean (l : List ℚ) : ℚ :=
  l.sum / l.length

/-- Population variance, the square of `np.std` (ddof = 0). -/
def listVariance (l : List ℚ) : ℚ :=
  listMean (l.map fun x => (x - listMean l) ^ 2)

/-- The info dictionary built by `BatteryEnv.get_info`
(`environment.py` lines 154-170). -/
structure Info where
  total_profit : ℚ
  profit_delta : ℚ
  battery_soc : ℚ
  max_charge_rate : ℚ
  max_discharge_rate : ℚ
  remaining_steps : ℤ
  deriving DecidableEq

/-- `BatteryEnv.get_info` (`environment.py` lines 154-170): adds the profit
delta to the running total and reports the environment observables. -/
def BatteryEnv.get_info (env : BatteryEnv) (delta : ℚ) : BatteryEnv × Info :=
  let env2 := { env with total_profit := env.total_profit + delta }
  (env2,
   { total_profit := env2.total_profit
     profit_delta := delta
     battery_soc := env2.battery.state_of_charge
     max_charge_rate := env2.battery.charge_rate
     max_discharge_rate := env2.battery.discharge_rate
     remaining_steps := (env2.market_data.length : ℤ) - env2.current_step - 1 })

/-- `BatteryEnv.process_action` (`environment.py` lines 137-152): positive
quantities charge, negative quantities discharge, zero does nothing; the
dispatch interval is 5 minutes. -/
def BatteryEnv.process_action (env : BatteryEnv) (quantity spot : ℚ) : ℚ × BatteryEnv :=
  let duration : ℚ := 5
  if 0 < quantity then
    let r := env.battery.charge quantity duration
    (-r.1 * (duration / 60) * spot, { env with battery := r.2 })
  else if quantity < 0 then
    let r := env.battery.discharge (-quantity) duration
    (r.1 * (duration / 60) * spot, { env with battery := r.2 })
  else (0, env)

/-- `BatteryEnv.step` (`environment.py` lines 120-135): `none` when the
episode is done (`current_step >= len(market_data) - 1`), otherwise record
the dispatch price, compute the 6-interval spot price, process the action,
advance one step and return the next market price with the info.  The
guard keeps both `iloc` accesses in bounds, so the list defaults are never
taken on reachable calls. -/
def BatteryEnv.step (env : BatteryEnv) (quantity : ℚ) :
    BatteryEnv × Option (ℚ × Info) :=
  if env.market_data.length - 1 ≤ env.current_step then (env, none)
  else
    let dispatch_price := env.market_data.getD env.current_step 0
    let dp := pushMax6 env.dispatch_prices dispatch_price
    let spot := listMean dp
    let env1 := { env with dispatch_prices := dp }
    let pa := env1.process_action quantity spot
    let env2 := { pa.2 with current_step := pa.2.current_step + 1 }
    let row := env2.market_data.getD env2.current_step 0
    let gi := env2.get_info pa.1
    (gi.1, some (row, gi.2))

/-- `BatteryEnv.reset` (`environment.py` lines 103-118).  Python's
truthiness makes an `episode_length` of `0` fall back to the remaining data
length, like `None`; an absent `initial_soc` falls back to the battery's
initial charge.  Returns the environment together with the market price at
the starting step and the info dictionary. -/
def BatteryEnv.reset (env : BatteryEnv) (start_step : ℕ)
    (episode_length : Option ℕ) (initial_soc : Option ℚ) :
    BatteryEnv × (ℚ × Info) :=
  let el := match episode_length with
    | some n => if n = 0 then env.market_data.length - start_step else n
    | none => env.market_data.length - start_step
  let soc := min (initial_soc.getD env.battery.initial_charge) env.battery.capacity
  let b := { env.battery with state_of_charge := soc }
  let env2 := { env with
    current_step := start_step
    total_profit := 0
    episode_length := el
    battery := b
    dispatch_prices := [] }
  let gi := env2.get_info 0
  (gi.1, (env2.market_data.getD start_step 0, gi.2))

/-- `BatteryEnv` constructor (`environment.py` lines 85-101) with the
default parameters used by `evaluate.py`: capacity 100, charge and
discharge rates 50, initial charge 50, efficiency 0.9. -/
def BatteryEnv.init (data : List ℚ) : BatteryEnv :=
  { battery := Battery.init 100 50 50 50 (9/10)
    market_data := data
    dispatch_prices := []
    total_profit := 0
    current_step := 0
    episode_length := data.length }

/-- Deterministic model of the standard-library PRNG stream used by
`set_seed`/`random.randint` (`evaluate.py` lines 16-18 and 85-86): seeding
fixes the whole subsequent stream, and each draw advances the state.  The
concrete mixing function stands in for the Mersenne Twister; the pipeline
only relies on the stream being a function of the seed. -/
def rngNext (s : ℕ) : ℕ :=
  (6364136223846793005 * s + 1442695040888963407) % 2 ^ 64

/-- `random.seed(seed)` / `np.random.seed(seed)`: the post-seed state. -/
def set_seed (seed : ℕ) : ℕ :=
  rngNext seed

/-- `random.randint(a, b)`: inclusive bounds, consuming one draw. -/
def randint (a b s : ℕ) : ℕ × ℕ :=
  let s2 := rngNext s
  (a + s2 % (b - a + 1), s2)

/-- A submission policy: its configuration (`class_name`, `parameters`),
its constructed internal state, and its `act` method, which sees the
current market price and info dictionary and may consult its internal
state and the seeded PRNG stream.  The policies shipped in the repository
(`SimplePolicy`, `MovingAveragePolicy`) are deterministic instances. -/
structure PolicySpec (σ : Type) where
  className : String
  parameters : List (String × ℚ)
  initState : σ
  act : ℚ → Info → σ → ℕ → (ℚ × σ) × ℕ

/-- The `while True` loop of `run_trial` (`evaluate.py` lines 24-34),
with explicit fuel: ask the policy for an action, step the environment,
stop when the episode is done, otherwise record total profit, state of
charge, the new market price and the action.  Returns the collected lists
`(profits, socs, market_prices, actions)` with the final environment,
policy state and PRNG state. -/
def run_trialLoop {σ : Type} (p : PolicySpec σ) :
    ℕ → BatteryEnv → ℚ → Info → σ → ℕ →
    (List ℚ × List ℚ × List ℚ × List ℚ) × BatteryEnv × σ × ℕ
  | 0, env, _, _, ps, rng => (([], [], [], []), env, ps, rng)
  | fuel + 1, env, price, info, ps, rng =>
    let a := p.act price info ps rng
    let st := env.step a.1.1
    match st.2 with
    | none => (([], [], [], []), st.1, a.1.2, a.2)
    | some ri =>
      let rest := run_trialLoop p fuel st.1 ri.1 ri.2 a.1.2 a.2
      ((ri.2.total_profit :: rest.1.1,
        ri.2.battery_soc :: rest.1.2.1,
        ri.1 :: rest.1.2.2.1,
        a.1.1 :: rest.1.2.2.2), rest.2)

/-- `run_trial` (`evaluate.py` lines 20-36): reset the environment to the
given start step and episode length, then run the loop.  The fuel
`length + 1` dominates the loop's iteration count, since every iteration
advances `current_step` and the loop stops at `length - 1`. -/
def run_trial {σ : Type} (p : PolicySpec σ) (env : BatteryEnv) (ps : σ) (rng : ℕ)
    (start_step episode_length : ℕ) :
    (List ℚ × List ℚ × List ℚ × List ℚ) × BatteryEnv × σ × ℕ :=
  let r := env.reset start_step (some episode_length) none
  run_trialLoop p (r.1.market_data.length + 1) r.1 r.2.1 r.2.2 ps rng

/-- The start-step generation loop of `main` (`evaluate.py` lines 82-88):
for each of `count` iterations (`range(trials - 1)`), re-seed with
`seed + trial` and draw `start_step = randint(0, len - 1)` and
`episode_length = randint(1, len - start_step)`. -/
def buildStarts (dataLen seed : ℕ) : ℕ → ℕ → ℕ → List (ℕ × ℕ) × ℕ
  | 0, _, rng => ([], rng)
  | k + 1, trialIdx, _ =>
    let rng1 := set_seed (seed + trialIdx)
    let r1 := randint 0 (dataLen - 1) rng1
    let r2 := randint 1 (dataLen - r1.1) r1.2
    let rest := buildStarts dataLen seed k (trialIdx + 1) r2.2
    ((r1.1, r2.1) :: rest.1, rest.2)

/-- The trial loop of `main` (`evaluate.py` lines 90-101): run each
`(start_step, episode_length)` pair on the shared environment and the
shared policy instance (whose internal state persists across trials),
extending the collected total profits and appending one `Trial` record per
pair. -/
def runTrials {σ : Type} (p : PolicySpec σ) :
    List (ℕ × ℕ) → BatteryEnv → σ → ℕ → (List ℚ × List Trial) × BatteryEnv × σ × ℕ
  | [], env, ps, rng => (([], []), env, ps, rng)
  | (start, epl) :: rest, env, ps, rng =>
    let r := run_trial p env ps rng start epl
    let t : Trial :=
      { actions := r.1.2.2.2
        profits := r.1.1
        socs := r.1.2.1
        market_prices := r.1.2.2.1
        start_step := start
        episode_length := epl }
    let rec2 := runTrials p rest r.2.1 r.2.2.1 r.2.2.2
    ((r.1.1 ++ rec2.1.1, t :: rec2.1.2), rec2.2)

/-- Embedding of `main` in `evaluate.py` (lines 45-121).  Inputs are
exactly the submission code (the policy), the market data, the trial count
and the seed; `now` is the wall-clock timestamp, used only to name the
default output file, and `outputFile` the optional `--output_file`
argument.  The first trial is `(0, len(data))`; the remaining trials come
from the seeded PRNG.  Returns the path written and the artifact
content. -/
def evaluateMain {σ : Type} (p : PolicySpec σ) (data : List ℚ)
    (trials seed : ℕ) (now : String) (outputFile : Option String) :
    String × Artifact :=
  let output_file := match outputFile with
    | some f => f
    | none => "bot/results/" ++ now ++ "_" ++ p.className ++ ".json"
  let rng0 := set_seed seed
  let build := buildStarts data.length seed (trials - 1) 0 rng0
  let pairs := (0, data.length) :: build.1
  let res := runTrials p pairs (BatteryEnv.init data) p.initState build.2
  let total_profits := res.1.1
  (output_file,
   { class_name := p.className
     parameters := p.parameters
     mean_profit := listMean total_profits
     std_profit_sq := listVariance total_profits
     num_runs := trials
     score := listMean total_profits
     trials := res.1.2
     main_trial_idx := 0 })

/-- C9: the evaluation artifact — in particular `mean_profit` and
`std_profit` (carried as its square) — is a function of the submission
policy, the market data and the seed alone: two runs differing only in the
ambient inputs (wall-clock timestamp, output-file path) produce identical
artifacts. -/
theorem c9_deterministic_evaluation {σ : Type} (p : PolicySpec σ)
    (data : List ℚ) (trials seed : ℕ) (now1 now2 : String)
    (of1 of2 : Option String) :
    (evaluateMain p data trials seed now1 of1).2.mean_profit =
      (evaluateMain p data trials seed now2 of2).2.mean_profit ∧
    (evaluateMain p data trials seed now1 of1).2.std_profit_sq =
      (evaluateMain p data trials seed now2 of2).2.std_profit_sq ∧
    (evaluateMain p data trials seed now1 of1).2 =
      (evaluateMain p data trials seed now2 of2).2 :=
  ⟨rfl, rfl, rfl⟩
